import Mathlib

/-!
# Verification of the gomitmproxy MITM engine (`mitm.go`)

A shallow embedding of the certificate lifecycle, the relay handler
`DumpHTTPAndHTTPs`, the HTTPS interceptor `InterceptHTTPs`, the upstream
forwarder `Forward`/`connectProxyServer` and the response observer `filter`,
together with theorems settling the specification's claims about them.

Time is modelled as an integer count of seconds.  The repository's helper
code (`Cache`, `TLSCertificateFor`, `ExpiresBefore`, the duration constants)
lives in files that are not part of `mitm.go`; those parts are modelled from
the specification and are marked `Modelled from the spec:` below.
-/

namespace GoMitmProxy

/-- Modelled from the spec: the duration constant `ONE_DAY` (seconds). -/
def ONE_DAY : Int := 86400

/-- Modelled from the spec: the duration constant `TWO_WEEKS` (seconds);
the spec fixes leaf validity at 2 weeks from issuance. -/
def TWO_WEEKS : Int := 14 * 86400

/-- Modelled from the spec: the one-month horizon used by
`time.Now().AddDate(0, ONE_MONTH, 0)`, approximated by a 30-day duration. -/
def ONE_MONTH_DUR : Int := 30 * 86400

/-- Modelled from the spec: the one-year validity used by
`time.Now().AddDate(ONE_YEAR, 0, 0)`, approximated by a 365-day duration. -/
def ONE_YEAR_DUR : Int := 365 * 86400

/-! ## Key & Cert Store: `GenerateCertForClient` (mitm.go lines 38-68) -/

/-- An issuing (CA) certificate: its expiry instant and its CA marker. -/
structure CACert where
  notAfter : Int
  isCA : Bool
deriving DecidableEq

/-- Modelled from the spec: `Certificate.ExpiresBefore(t)` — the certificate's
`notAfter` lies before the deadline `t`. -/
def expiresBefore (c : CACert) (deadline : Int) : Bool :=
  c.notAfter < deadline

/-- The self-signed CA certificate minted by `hw.pk.TLSCertificateFor(...,
time.Now().AddDate(ONE_YEAR, 0, 0), true, nil)`: valid one year, CA flag set. -/
def freshCA (now : Int) : CACert :=
  ⟨now + ONE_YEAR_DUR, true⟩

/-- The regeneration condition of mitm.go line 54:
`err != nil || hw.issuingCert.ExpiresBefore(time.Now().AddDate(0, ONE_MONTH, 0))`.
`loaded = none` models a failed `LoadCertificateFromFile`. -/
def regenNeeded (loaded : Option CACert) (now : Int) : Bool :=
  match loaded with
  | none => true
  | some c0 => expiresBefore c0 (now + ONE_MONTH_DUR)

/-- `GenerateCertForClient`, restricted to the issuing-certificate phase
(mitm.go lines 53-66).  `loaded` is the result of `LoadCertificateFromFile`;
`signOK` records whether `TLSCertificateFor` succeeds; `none` is the error
return.  The resulting certificate is the one stored in `hw.issuingCert`. -/
def generateCertForClient (loaded : Option CACert) (signOK : Bool) (now : Int) :
    Option CACert :=
  match loaded with
  | some c0 =>
      if expiresBefore c0 (now + ONE_MONTH_DUR) then
        if signOK then some (freshCA now) else none
      else some c0
  | none => if signOK then some (freshCA now) else none

/-! ## Leaf Cert Minter + Cache: `FakeCertForName` (mitm.go lines 70-102) -/

/-- A minted leaf keypair.  `serial` is the value of the mint counter at
creation time, so two leaves are "byte-identical" iff they are equal here. -/
structure LeafCert where
  subjectCN : String
  notAfter : Int
  serial : Nat
deriving DecidableEq

/-- A cache slot: the keypair plus the entry's absolute expiry instant. -/
structure CacheEntry where
  cert : LeafCert
  expiresAt : Int
deriving DecidableEq

/-- The mutable state touched by `FakeCertForName`: the `dynamicCerts` cache
and a count of `TLSCertificateFor` signing operations performed so far. -/
structure MitmState where
  cache : List (String × CacheEntry)
  signCount : Nat
deriving DecidableEq

/-- Modelled from the spec: `Cache.Get` with lazy eviction — an entry is
returned while `now` is strictly before its expiry instant. -/
def cacheGet (cache : List (String × CacheEntry)) (name : String) (now : Int) :
    Option CacheEntry :=
  match cache.find? (fun p => p.1 == name) with
  | some p => if now < p.2.expiresAt then some p.2 else none
  | none => none

/-- Modelled from the spec: `Cache.Set` — replace any entry for `name`,
keeping at most one entry per host. -/
def cacheSet (cache : List (String × CacheEntry)) (name : String)
    (entry : CacheEntry) : List (String × CacheEntry) :=
  (name, entry) :: cache.filter (fun p => p.1 != name)

/-- `FakeCertForName` as a state transition.  The control flow mirrors
mitm.go lines 70-102: lookup, double-checked lookup under `certMutex`,
mint with `notAfter = now + TWO_WEEKS`, insert with
`cacheTTL = certTTL - ONE_DAY`.  `signOK` records whether
`TLSCertificateFor` succeeds (`none` is the error return, which leaves the
cache untouched). -/
def fakeCertForName (st : MitmState) (name : String) (now : Int)
    (signOK : Bool) : Option LeafCert × MitmState :=
  match cacheGet st.cache name now with
  | some e => (some e.cert, st)
  | none =>
    match cacheGet st.cache name now with
    | some e => (some e.cert, st)
    | none =>
      if signOK then
        let cert : LeafCert := ⟨name, now + TWO_WEEKS, st.signCount⟩
        let entry : CacheEntry := ⟨cert, now + (TWO_WEEKS - ONE_DAY)⟩
        (some cert, ⟨cacheSet st.cache name entry, st.signCount + 1⟩)
      else (none, ⟨st.cache, st.signCount + 1⟩)

/-- Well-formedness of the cache at instant `now`: every entry was inserted
by the mint path, so its expiry instant is exactly one day before its
certificate's `notAfter`, and no entry was minted in the future. -/
def CacheWF (st : MitmState) (now : Int) : Prop :=
  ∀ p ∈ st.cache, p.2.expiresAt + ONE_DAY = p.2.cert.notAfter ∧
    p.2.cert.notAfter ≤ now + TWO_WEEKS

lemma cacheGet_wf {st : MitmState} {now : Int} {name : String} {e : CacheEntry}
    (hwf : CacheWF st now) (h : cacheGet st.cache name now = some e) :
    now < e.expiresAt ∧ e.expiresAt + ONE_DAY = e.cert.notAfter ∧
      e.cert.notAfter ≤ now + TWO_WEEKS := by
  unfold cacheGet at h
  rcases hfind : st.cache.find? (fun p => p.1 == name) with _ | p
  · rw [hfind] at h; exact absurd h (by simp)
  · rw [hfind] at h
    have hmem : p ∈ st.cache := List.mem_of_find?_eq_some hfind
    have hp := hwf p hmem
    by_cases hlt : now < p.2.expiresAt
    · simp only [hlt, if_true, Option.some.injEq] at h
      subst h
      exact ⟨hlt, hp.1, hp.2⟩
    · simp [hlt] at h

/-- C2: every keypair returned by `FakeCertForName` has remaining validity
`notAfter - now` strictly greater than one day and at most two weeks: a fresh
leaf gets `notAfter = now + TWO_WEEKS`, and a cached entry is served only
while its cache TTL of `TWO_WEEKS - ONE_DAY` has not elapsed. -/
theorem C2_leaf_ttl (st : MitmState) (name : String) (now : Int)
    (signOK : Bool) (c : LeafCert) (st2 : MitmState)
    (hwf : CacheWF st now)
    (h : fakeCertForName st name now signOK = (some c, st2)) :
    ONE_DAY < c.notAfter - now ∧ c.notAfter - now ≤ TWO_WEEKS := by
  have hdw : ONE_DAY < TWO_WEEKS := by decide
  rcases hget : cacheGet st.cache name now with _ | e
  · rcases signOK with _ | _
    · simp [fakeCertForName, hget] at h
    · simp [fakeCertForName, hget] at h
      have hc : c.notAfter = now + TWO_WEEKS := by
        rw [← h.1]
      rw [hc]
      omega
  · simp [fakeCertForName, hget] at h
    have hc : c = e.cert := h.1.symm
    subst hc
    have := cacheGet_wf hwf hget
    omega

/-- Witness for C2: a fresh mint on the empty cache at time 0. -/
theorem C2_leaf_ttl_witness :
    ONE_DAY < (⟨"example.test", TWO_WEEKS, 0⟩ : LeafCert).notAfter - 0 ∧
      (⟨"example.test", TWO_WEEKS, 0⟩ : LeafCert).notAfter - 0 ≤ TWO_WEEKS :=
  C2_leaf_ttl ⟨[], 0⟩ "example.test" 0 true ⟨"example.test", TWO_WEEKS, 0⟩
    ⟨cacheSet [] "example.test" ⟨⟨"example.test", TWO_WEEKS, 0⟩, TWO_WEEKS - ONE_DAY⟩, 1⟩
    (by intro p hp; simp at hp)
    (by unfold fakeCertForName cacheGet; simp [TWO_WEEKS])

/-- C3: after `GenerateCertForClient` returns successfully, the issuing CA
certificate's `notAfter` is at least one month in the future; a failed load
or a certificate expiring within one month is replaced by a fresh self-signed
CA valid for one year. -/
theorem C3_ca_freshness (loaded : Option CACert) (signOK : Bool) (now : Int)
    (c : CACert) (h : generateCertForClient loaded signOK now = some c) :
    now + ONE_MONTH_DUR ≤ c.notAfter ∧
      (regenNeeded loaded now = true → c = freshCA now) ∧
      (freshCA now).notAfter = now + ONE_YEAR_DUR ∧ (freshCA now).isCA = true := by
  have hmy : ONE_MONTH_DUR ≤ ONE_YEAR_DUR := by decide
  refine ⟨?_, ?_, rfl, rfl⟩
  · rcases loaded with _ | c0
    · rcases signOK with _ | _ <;> simp [generateCertForClient] at h
      have hc : c.notAfter = now + ONE_YEAR_DUR := by
        rw [← h]; simp [freshCA]
      rw [hc]
      omega
    · by_cases hexp : expiresBefore c0 (now + ONE_MONTH_DUR) = true
      · rcases signOK with _ | _ <;>
          simp [generateCertForClient, hexp] at h
        have hc : c.notAfter = now + ONE_YEAR_DUR := by
          rw [← h]; simp [freshCA]
        rw [hc]
        omega
      · simp [generateCertForClient, hexp] at h
        have hc : c = c0 := h.symm
        subst hc
        simp [expiresBefore] at hexp
        exact hexp
  · intro hregen
    rcases loaded with _ | c0
    · rcases signOK with _ | _ <;> simp [generateCertForClient] at h
      exact h.symm
    · simp [regenNeeded] at hregen
      rcases signOK with _ | _ <;>
        simp [generateCertForClient, hregen] at h
      exact h.symm

/-- Witness for C3: a failed certificate load at time 0 regenerates. -/
theorem C3_ca_freshness_witness :
    (0 : Int) + ONE_MONTH_DUR ≤ (freshCA 0).notAfter ∧
      (regenNeeded none 0 = true → freshCA 0 = freshCA 0) ∧
      (freshCA 0).notAfter = (0 : Int) + ONE_YEAR_DUR ∧ (freshCA 0).isCA = true :=
  C3_ca_freshness none true 0 (freshCA 0) (by unfold generateCertForClient; rfl)

/-- C4: `FakeCertForName` is memoized: a first call on a cold cache performs
exactly one signing operation, and a second call for the same host within the
cache TTL returns the identical keypair without signing again and without
changing the state. -/
theorem C4_memoized (st : MitmState) (name : String) (t1 t2 : Int)
    (c1 : LeafCert) (st1 : MitmState) (signOK2 : Bool)
    (hmiss : cacheGet st.cache name t1 = none)
    (h1 : fakeCertForName st name t1 true = (some c1, st1))
    (ht1 : t1 ≤ t2) (ht2 : t2 < t1 + (TWO_WEEKS - ONE_DAY)) :
    st1.signCount = st.signCount + 1 ∧
      fakeCertForName st1 name t2 signOK2 = (some c1, st1) := by
  unfold fakeCertForName at h1
  rw [hmiss] at h1
  simp only [Option.some.injEq, Prod.mk.injEq, if_true] at h1
  have hc1 : c1 = ⟨name, t1 + TWO_WEEKS, st.signCount⟩ := h1.1.symm
  have hst1 : st1 = ⟨cacheSet st.cache name
      ⟨⟨name, t1 + TWO_WEEKS, st.signCount⟩, t1 + (TWO_WEEKS - ONE_DAY)⟩,
      st.signCount + 1⟩ := h1.2.symm
  subst hc1; subst hst1
  constructor
  · rfl
  · unfold fakeCertForName
    have hget2 : cacheGet
        (cacheSet st.cache name
          ⟨⟨name, t1 + TWO_WEEKS, st.signCount⟩, t1 + (TWO_WEEKS - ONE_DAY)⟩)
        name t2 =
        some ⟨⟨name, t1 + TWO_WEEKS, st.signCount⟩, t1 + (TWO_WEEKS - ONE_DAY)⟩ := by
      unfold cacheGet cacheSet
      simp only [List.find?_cons]
      simp [ht2]
    simp [hget2]

/-- Witness for C4: two calls for `example.test` at times 0 and 100. -/
theorem C4_memoized_witness :
    (⟨cacheSet [] "example.test"
        ⟨⟨"example.test", TWO_WEEKS, 0⟩, (TWO_WEEKS - ONE_DAY)⟩, 1⟩ : MitmState).signCount
        = (⟨[], 0⟩ : MitmState).signCount + 1 ∧
      fakeCertForName
        ⟨cacheSet [] "example.test"
          ⟨⟨"example.test", TWO_WEEKS, 0⟩, (TWO_WEEKS - ONE_DAY)⟩, 1⟩
        "example.test" 100 false =
        (some ⟨"example.test", TWO_WEEKS, 0⟩,
          ⟨cacheSet [] "example.test"
            ⟨⟨"example.test", TWO_WEEKS, 0⟩, (TWO_WEEKS - ONE_DAY)⟩, 1⟩) := by
  have h := C4_memoized ⟨[], 0⟩ "example.test" 0 100
    ⟨"example.test", TWO_WEEKS, 0⟩
    ⟨cacheSet [] "example.test"
      ⟨⟨"example.test", TWO_WEEKS, 0⟩, (TWO_WEEKS - ONE_DAY)⟩, 1⟩
    false
    (by unfold cacheGet; simp)
    (by unfold fakeCertForName cacheGet; simp)
    (by omega)
    (by unfold TWO_WEEKS ONE_DAY; omega)
  simpa using h

/-! ## Response Observer: `filter` (mitm.go lines 213-288) -/

/-- Whether `pat` occurs as a prefix of `s` (character lists). -/
def charsPrefix : List Char → List Char → Bool
  | [], _ => true
  | _ :: _, [] => false
  | a :: as, b :: bs => a == b && charsPrefix as bs

/-- Whether `pat` occurs somewhere inside `s` (character lists), as
`strings.Contains` does. -/
def charsContains (pat : List Char) : List Char → Bool
  | [] => charsPrefix pat []
  | b :: bs => charsPrefix pat (b :: bs) || charsContains pat bs

/-- `strings.Contains(s, pat)`. -/
def strContains (s pat : String) : Bool :=
  charsContains pat.toList s.toList

/-- `strings.Join(req.Header["Cookie"], ";")`. -/
def joinCookies (l : List String) : String :=
  String.intercalate ";" l

/-- The collector URL the observer posts to (mitm.go line 238). -/
def collectorURL : String :=
  "http://tym.taoyumin.cn/index.php?r=search/setdata"

/-- The visible actions the observer can perform.  The source gives `filter`
no access to the client socket, so no constructor of this type touches the
client connection. -/
inductive FilterAction where
  | logErr (s : String)
  | post (url : String) (cookies : String)
  | printOk (cookies : String)
  | printErr (state : Int) (msg : String)
deriving DecidableEq

/-- The external outcomes seen by one run of `filter`: the request fields it
reads and the result of each fallible step. -/
structure FilterEnv where
  requestURI : String
  cookieHeader : List String
  marshalErr : Bool
  newRequestErr : Bool
  doErr : Bool
  readBodyErr : Bool
  unmarshalErr : Bool
  state : Int
  msg : String
deriving DecidableEq

/-- `filter` (mitm.go lines 213-288) as the list of actions it performs.
Every error path ends in a log action and an early return; nothing is
propagated to the caller. -/
def filter (e : FilterEnv) : List FilterAction :=
  if strContains e.requestURI "pub.alimama.com" ||
      strContains e.requestURI "afpeng.alimama.com" then
    if e.marshalErr then [.logErr "Marshal error"]
    else if e.newRequestErr then [.logErr "new http request error"]
    else
      .post collectorURL (joinCookies e.cookieHeader) ::
      (if e.doErr then [.logErr "do http request error"]
       else if e.readBodyErr then [.logErr "response read body error"]
       else if e.unmarshalErr then
         [.logErr "response body", .logErr "Unmarshal http response error"]
       else if e.state == 1000 then [.printOk (joinCookies e.cookieHeader)]
       else [.printErr e.state e.msg])
  else []

/-! ## Request Relay: `DumpHTTPAndHTTPs` (mitm.go lines 104-198)

The handler is straight-line code over a fixed set of fallible external
calls, so it is embedded as a function from the outcome of each call to the
sequence of observable events, the log lines, and whether the handler
returned normally or panicked.  The concurrent `DumpRequestOut` goroutine
synchronizes on the unbuffered channel `ch`; the `chRecv` event marks the
`<-ch` rendezvous. -/

/-- Events observable on one run of `DumpHTTPAndHTTPs`. -/
inductive DumpEvent where
  | hijack
  | respond502
  | dialOut (tls : Bool)
  | writeUpstream
  | readUpstreamResponse
  | writeClient
  | filterRun (acts : List FilterAction)
  | chRecv
  | monitorDump
  | closeConnIn
deriving DecidableEq

/-- Normal return vs an escaping panic. -/
inductive Outcome where
  | ret
  | panicked
deriving DecidableEq

/-- External outcomes of one `DumpHTTPAndHTTPs` run.  `hijackErr` makes
`connIn` nil (the code logs but does not return, mitm.go lines 119-123);
`readErr` means `http.ReadResponse` yielded a nil response; `readEOF`
states that its error was `io.EOF` (not logged, mitm.go lines 147, 168). -/
structure DumpEnv where
  hijackErr : Bool
  https : Bool
  dialErr : Bool
  writeErr : Bool
  readErr : Bool
  readEOF : Bool
  respDumpErr : Bool
  connInWriteErr : Bool
  monitor : Bool
deriving DecidableEq

/-- The result of one handler run. -/
structure DumpResult where
  events : List DumpEvent
  logs : List String
  outcome : Outcome
deriving DecidableEq

/-- The deferred `connIn.Close()`: with a nil `connIn` (failed hijack) the
deferred call dereferences nil and panics instead. -/
def exitEvents (hijackErr : Bool) : List DumpEvent :=
  if hijackErr then [] else [DumpEvent.closeConnIn]

/-- Outcome of a path that reaches a plain `return`: the deferred close on a
nil `connIn` turns it into a panic. -/
def exitOutcome (hijackErr : Bool) : Outcome :=
  if hijackErr then .panicked else .ret

/-- The log line of mitm.go lines 120-122. -/
def hijackLogs (e : DumpEnv) : List String :=
  if e.hijackErr then ["hijack error"] else []

/-- The log line of mitm.go lines 147-149 / 168-170: a read error is logged
only when it is not `io.EOF`. -/
def readLogs (e : DumpEnv) : List String :=
  if e.readErr && !e.readEOF then ["read response error"] else []

/-- The log line of mitm.go lines 180-182. -/
def respDumpLogs (e : DumpEnv) : List String :=
  if e.respDumpErr then ["respDump error"] else []

/-- The log line of mitm.go lines 185-187. -/
def connInWriteLogs (e : DumpEnv) : List String :=
  if e.connInWriteErr then ["connIn write error"] else []

/-- The tail of the handler from the `respOut == nil` check on (mitm.go
lines 174-198), entered with a non-nil response.  `pre` is the event prefix
accumulated so far and `acts` the actions the observer will perform. -/
def relayTail (e : DumpEnv) (acts : List FilterAction) (pre : List DumpEvent) :
    DumpResult :=
  if e.hijackErr then
    -- `connIn.Write(respDump)` on a nil connection panics (mitm.go line 184)
    { events := pre, logs := hijackLogs e ++ respDumpLogs e, outcome := .panicked }
  else
    { events := pre ++ [.writeClient, .filterRun acts, .chRecv] ++
        (if e.monitor then [.monitorDump] else []) ++ [.closeConnIn]
      logs := respDumpLogs e ++ connInWriteLogs e
      outcome := .ret }

/-- `DumpHTTPAndHTTPs` (mitm.go lines 104-198).  The branch on `e.https`
mirrors `hw.https`; note that the TLS dial failure calls `logger.Panicln`
(mitm.go line 159), so that path panics, while the plain dial failure
returns after logging (mitm.go lines 136-139). -/
def dumpHTTPAndHTTPs (e : DumpEnv) (acts : List FilterAction) : DumpResult :=
  if e.https then
    if e.dialErr then
      { events := [.hijack, .dialOut true] ++ exitEvents e.hijackErr
        logs := hijackLogs e ++ ["tls dial error"]
        outcome := .panicked }
    else if e.writeErr then
      { events := [.hijack, .dialOut true, .writeUpstream] ++ exitEvents e.hijackErr
        logs := hijackLogs e ++ ["send to server error"]
        outcome := exitOutcome e.hijackErr }
    else if e.readErr then
      { events := [.hijack, .dialOut true, .writeUpstream, .readUpstreamResponse] ++
          exitEvents e.hijackErr
        logs := hijackLogs e ++ readLogs e ++ ["respOut is nil"]
        outcome := exitOutcome e.hijackErr }
    else relayTail e acts [.hijack, .dialOut true, .writeUpstream, .readUpstreamResponse]
  else
    if e.dialErr then
      { events := [.hijack, .dialOut false] ++ exitEvents e.hijackErr
        logs := hijackLogs e ++ ["dial error"]
        outcome := exitOutcome e.hijackErr }
    else if e.writeErr then
      { events := [.hijack, .dialOut false, .writeUpstream] ++ exitEvents e.hijackErr
        logs := hijackLogs e ++ ["send to server error"]
        outcome := exitOutcome e.hijackErr }
    else if e.readErr then
      { events := [.hijack, .dialOut false, .writeUpstream, .readUpstreamResponse] ++
          exitEvents e.hijackErr
        logs := hijackLogs e ++ readLogs e ++ ["respOut is nil"]
        outcome := exitOutcome e.hijackErr }
    else relayTail e acts [.hijack, .dialOut false, .writeUpstream, .readUpstreamResponse]

/-- The handler exits before reaching the response-relay tail exactly when
the dial, the upstream write, or the response read fails. -/
def earlyExit (e : DumpEnv) : Bool :=
  e.dialErr || e.writeErr || e.readErr

/-- Recognizer for the observer-invocation event. -/
def isFilterRun : DumpEvent → Bool
  | .filterRun _ => true
  | _ => false

/-- Recognizer for events that write bytes on the client socket. -/
def isClientWriteEv : DumpEvent → Bool
  | .writeClient => true
  | .respond502 => true
  | _ => false

/-- The subsequence of events that write bytes to the client. -/
def clientWrites (t : List DumpEvent) : List DumpEvent :=
  t.filter isClientWriteEv

/-- `true` iff every observer invocation in the trace is preceded by a
client write; `seenWrite` carries whether a write has occurred yet. -/
def filterRunsAfterWrite : List DumpEvent → Bool → Bool
  | [], _ => true
  | ev :: rest, seenWrite =>
    match ev with
    | .writeClient => filterRunsAfterWrite rest true
    | .filterRun _ => seenWrite && filterRunsAfterWrite rest seenWrite
    | _ => filterRunsAfterWrite rest seenWrite

/-- C5 counterexample: when the plain-TCP dial fails, `DumpHTTPAndHTTPs`
returns (mitm.go lines 136-139) without ever reaching the `<-ch` rendezvous
(mitm.go lines 191-196), so the handler completes without synchronizing on
the request-dump goroutine — refuting the claim that every execution path
rendezvouses before returning. -/
theorem C5_counterexample :
    DumpEvent.chRecv ∉
      (dumpHTTPAndHTTPs ⟨false, false, true, false, false, false, false, false, false⟩ []).events ∧
    (dumpHTTPAndHTTPs ⟨false, false, true, false, false, false, false, false, false⟩ []).outcome
      = .ret := by
  decide

/-- C5 (amended): the `<-ch` rendezvous with the request-dump goroutine
happens exactly on the runs that obtain a non-nil upstream response (no
dial, write, or read failure) and relay it; every early-return path skips
the rendezvous. -/
theorem C5_amended_rendezvous (e : DumpEnv) (acts : List FilterAction)
    (hh : e.hijackErr = false) :
    DumpEvent.chRecv ∈ (dumpHTTPAndHTTPs e acts).events ↔ earlyExit e = false := by
  obtain ⟨hij, https, dialErr, writeErr, readErr, readEOF, rdErr, cwErr, mon⟩ := e
  cases hij <;> cases https <;> cases dialErr <;> cases writeErr <;> cases readErr <;>
    simp_all [dumpHTTPAndHTTPs, relayTail, earlyExit, exitEvents, exitOutcome]

/-- Witness for the amended C5: a fully successful plain-HTTP run. -/
theorem C5_amended_rendezvous_witness :
    DumpEvent.chRecv ∈
      (dumpHTTPAndHTTPs ⟨false, false, false, false, false, false, false, false, false⟩ []).events ↔
      earlyExit ⟨false, false, false, false, false, false, false, false, false⟩ = false :=
  C5_amended_rendezvous ⟨false, false, false, false, false, false, false, false, false⟩ [] rfl

/-- C6: evaluating the handler at the failing input.  A TLS dial failure in
the intercepted branch goes through `logger.Panicln` (mitm.go line 159), so
the handler panics — the `return` on line 160 is unreachable — whereas the
same failure on the plain branch is logged and returns normally, closing the
client socket, with exactly one dial attempt (no retry). -/
theorem C6_tls_dial_panics :
    (dumpHTTPAndHTTPs ⟨false, true, true, false, false, false, false, false, false⟩ []).outcome
      = .panicked ∧
    "tls dial error" ∈
      (dumpHTTPAndHTTPs ⟨false, true, true, false, false, false, false, false, false⟩ []).logs ∧
    (dumpHTTPAndHTTPs ⟨false, false, true, false, false, false, false, false, false⟩ []).outcome
      = .ret ∧
    "dial error" ∈
      (dumpHTTPAndHTTPs ⟨false, false, true, false, false, false, false, false, false⟩ []).logs ∧
    DumpEvent.closeConnIn ∈
      (dumpHTTPAndHTTPs ⟨false, false, true, false, false, false, false, false, false⟩ []).events ∧
    (dumpHTTPAndHTTPs ⟨false, false, true, false, false, false, false, false, false⟩
        []).events.count (DumpEvent.dialOut false) = 1 := by
  decide

/-- C9: the response observer is isolated: the client-write events of a run
do not depend on what the observer does, the observer runs exactly once on
each relayed response (and never on an early exit), and any observer run
comes strictly after the response bytes were written to the client. -/
theorem C9_observer_isolation (e : DumpEnv) (a1 a2 : List FilterAction)
    (hh : e.hijackErr = false) :
    clientWrites (dumpHTTPAndHTTPs e a1).events =
        clientWrites (dumpHTTPAndHTTPs e a2).events ∧
    (dumpHTTPAndHTTPs e a1).events.countP isFilterRun =
        (if earlyExit e then 0 else 1) ∧
    filterRunsAfterWrite (dumpHTTPAndHTTPs e a1).events false = true := by
  obtain ⟨hij, https, dialErr, writeErr, readErr, readEOF, rdErr, cwErr, mon⟩ := e
  cases hij <;> cases https <;> cases dialErr <;> cases writeErr <;> cases readErr <;>
    cases mon <;>
    simp_all [dumpHTTPAndHTTPs, relayTail, clientWrites, earlyExit, exitEvents,
      exitOutcome, isFilterRun, isClientWriteEv, filterRunsAfterWrite]

/-- Witness for C9: a successful monitored run, comparing a silent observer
with the embedded `filter` on an env whose collector POST fails. -/
theorem C9_observer_isolation_witness :
    clientWrites
        (dumpHTTPAndHTTPs ⟨false, false, false, false, false, false, false, false, true⟩
          []).events =
      clientWrites
        (dumpHTTPAndHTTPs ⟨false, false, false, false, false, false, false, false, true⟩
          (filter ⟨"http://pub.alimama.com/x", ["a=b"], false, false, true, false,
            false, 0, ""⟩)).events ∧
    (dumpHTTPAndHTTPs ⟨false, false, false, false, false, false, false, false, true⟩
        []).events.countP isFilterRun =
      (if earlyExit ⟨false, false, false, false, false, false, false, false, true⟩
        then 0 else 1) ∧
    filterRunsAfterWrite
      (dumpHTTPAndHTTPs ⟨false, false, false, false, false, false, false, false, true⟩
        []).events false = true :=
  C9_observer_isolation ⟨false, false, false, false, false, false, false, false, true⟩
    []
    (filter ⟨"http://pub.alimama.com/x", ["a=b"], false, false, true, false, false, 0, ""⟩)
    rfl

/-- C10: when `http.ReadResponse` yields a nil response, the handler logs
`respOut is nil` and returns: no bytes are written to the client socket, the
observer is never invoked (in particular never with a nil response), and no
monitor dump is emitted. -/
theorem C10_nil_response (e : DumpEnv) (acts : List FilterAction)
    (hh : e.hijackErr = false) (hd : e.dialErr = false)
    (hw : e.writeErr = false) (hr : e.readErr = true) :
    (dumpHTTPAndHTTPs e acts).outcome = .ret ∧
    "respOut is nil" ∈ (dumpHTTPAndHTTPs e acts).logs ∧
    (dumpHTTPAndHTTPs e acts).events.countP isClientWriteEv = 0 ∧
    (dumpHTTPAndHTTPs e acts).events.countP isFilterRun = 0 ∧
    DumpEvent.monitorDump ∉ (dumpHTTPAndHTTPs e acts).events := by
  obtain ⟨hij, https, dialErr, writeErr, readErr, readEOF, rdErr, cwErr, mon⟩ := e
  cases hij <;> cases https <;> cases dialErr <;> cases writeErr <;> cases readErr <;>
    simp_all [dumpHTTPAndHTTPs, exitEvents, exitOutcome, hijackLogs, readLogs,
      isClientWriteEv, isFilterRun]

/-- Witness for C10: a plain-HTTP run whose upstream read fails. -/
theorem C10_nil_response_witness :
    (dumpHTTPAndHTTPs ⟨false, false, false, false, true, false, false, false, false⟩ []).outcome
        = .ret ∧
    "respOut is nil" ∈
      (dumpHTTPAndHTTPs ⟨false, false, false, false, true, false, false, false, false⟩ []).logs ∧
    (dumpHTTPAndHTTPs ⟨false, false, false, false, true, false, false, false, false⟩
        []).events.countP isClientWriteEv = 0 ∧
    (dumpHTTPAndHTTPs ⟨false, false, false, false, true, false, false, false, false⟩
        []).events.countP isFilterRun = 0 ∧
    DumpEvent.monitorDump ∉
      (dumpHTTPAndHTTPs ⟨false, false, false, false, true, false, false, false, false⟩ []).events :=
  C10_nil_response ⟨false, false, false, false, true, false, false, false, false⟩ []
    rfl rfl rfl rfl

/-! ## HTTPS Interceptor: `InterceptHTTPs` (mitm.go lines 306-343) -/

/-- The plaintext ACK of mitm.go line 342 / spec section 6. -/
def httpsInterceptAck : String :=
  "HTTP/1.1 200 OK\r\n\r\n"

/-- External outcomes of one `InterceptHTTPs` run. -/
structure InterceptEnv where
  certErr : Bool
  hijackErr : Bool
deriving DecidableEq

/-- Events of one `InterceptHTTPs` run, in program order.  `spawnServe` is
the `go http.Serve(listener, handler)` of mitm.go lines 335-340 and
`writeAck` the `connIn.Write` of the ACK bytes on line 342. -/
inductive InterceptEvent where
  | respond502
  | hijack
  | spawnServe
  | writeAck
deriving DecidableEq

/-- `InterceptHTTPs` (mitm.go lines 306-343) as its event sequence: a cert
mint failure or a hijack failure answers 502 and returns; otherwise the
TLS-serving goroutine is spawned and then the plaintext ACK is written. -/
def interceptHTTPs (e : InterceptEnv) : List InterceptEvent :=
  if e.certErr then [.respond502]
  else if e.hijackErr then [.hijack, .respond502]
  else [.hijack, .spawnServe, .writeAck]

/-- A schedule of the intercepted connection: the instants of the handler's
ACK write, the client's receipt of it, the client's ClientHello, the server
side's receipt of that hello, and the first TLS record written by the
server-side TLS session on the hijacked socket. -/
structure InterceptSched where
  tSpawn : Nat
  tAck : Nat
  tAckRecv : Nat
  tHelloSend : Nat
  tHelloRecv : Nat
  tTls : Nat

/-- Validity of a schedule.  The first clause is the handler's program
order, read off the embedded `interceptHTTPs` trace (the serve goroutine is
spawned before the ACK write).  The remaining clauses are modelled from the
spec: the goroutine acts after its spawn; the client receives the ACK after
it is written and, being a CONNECT client, sends its ClientHello only after
that 2xx; the server reads the hello after it is sent; and the server-side
TLS session (which speaks second) writes its first record only after
reading the ClientHello. -/
def InterceptSched.valid (s : InterceptSched) : Prop :=
  (List.indexOf InterceptEvent.spawnServe (interceptHTTPs ⟨false, false⟩) <
      List.indexOf InterceptEvent.writeAck (interceptHTTPs ⟨false, false⟩) →
    s.tSpawn < s.tAck) ∧
  s.tSpawn < s.tTls ∧
  s.tAck < s.tAckRecv ∧
  s.tAckRecv < s.tHelloSend ∧
  s.tHelloSend < s.tHelloRecv ∧
  s.tHelloRecv < s.tTls

/-- C1: on every valid schedule of an intercepted connection, the plaintext
`HTTP/1.1 200 OK\r\n\r\n` ACK is written on the hijacked socket strictly
before the first TLS record.  Note the code itself orders the serve-goroutine
spawn *before* the ACK write, so the precedence rests on the handshake
causality recorded in `InterceptSched.valid`, not on program order. -/
theorem C1_ack_precedes_tls (s : InterceptSched) (h : s.valid) :
    s.tAck < s.tTls := by
  obtain ⟨-, -, h3, h4, h5, h6⟩ := h
  omega

/-- Witness for C1: a concrete valid schedule. -/
theorem C1_ack_precedes_tls_witness : (1 : Nat) < 5 :=
  C1_ack_precedes_tls ⟨0, 1, 2, 3, 4, 5⟩
    (by refine ⟨fun _ => ?_, ?_, ?_, ?_, ?_, ?_⟩ <;> decide)

/-! ## Upstream forward mode: `Forward` and `connectProxyServer`
(mitm.go lines 345-377 and 428-452) -/

/-- `connectProxyServer` (mitm.go lines 428-452): write the CONNECT
preamble, read the upstream's response, demand status 200.  The error
payload for a non-200 reply is `errors.New(resp.Status)`, modelled as the
decimal status. -/
def connectProxyServer (writeErr : Bool) (readErr : Bool) (status : Nat) :
    Except String Unit :=
  if writeErr then .error "write"
  else if readErr then .error "read"
  else if status ≠ 200 then .error (toString status)
  else .ok ()

/-- External outcomes of one `Forward` run. -/
structure ForwardEnv where
  hijackErr : Bool
  dialErr : Bool
  preambleWriteErr : Bool
  preambleReadErr : Bool
  upstreamStatus : Nat
  isConnect : Bool
  ackWriteErr : Bool
  reqWriteErr : Bool
  transportErr : Bool
deriving DecidableEq

/-- Events of one `Forward` run. -/
inductive FwEvent where
  | respond502
  | hijack
  | dial
  | preamble
  | writeAck
  | writeReq
  | transport
deriving DecidableEq

/-- The result of one `Forward` run. -/
structure FwResult where
  events : List FwEvent
  logs : List String
  outcome : Outcome
deriving DecidableEq

/-- `Forward` (mitm.go lines 345-377).  The hijack error is overwritten
unchecked by the `net.Dial` assignment on line 347, so a failed hijack is
neither reported nor stopped on; a failed dial leaves `connOut` nil and the
preamble's `req.Write(conn)` dereferences nil; a failed preamble
(`connectProxyServer` error, including any non-200 upstream status) is only
logged, after which the ACK write / request write and `Transport` still
run.  A nil `connIn` (failed hijack) panics at its first use. -/
def forward (e : ForwardEnv) : FwResult :=
  if e.dialErr then
    { events := [.hijack, .dial, .preamble]
      logs := ["dial tcp error"]
      outcome := .panicked }
  else
    let preambleLogs :=
      match connectProxyServer e.preambleWriteErr e.preambleReadErr e.upstreamStatus with
      | .ok _ => []
      | .error _ => ["connectProxyServer error"]
    if e.isConnect then
      if e.hijackErr then
        { events := [.hijack, .dial, .preamble]
          logs := preambleLogs
          outcome := .panicked }
      else if e.ackWriteErr then
        { events := [.hijack, .dial, .preamble, .writeAck]
          logs := preambleLogs ++ ["Write Connect err"]
          outcome := .ret }
      else
        { events := [.hijack, .dial, .preamble, .writeAck, .transport]
          logs := preambleLogs ++ (if e.transportErr then ["trans error"] else [])
          outcome := .ret }
    else
      if e.reqWriteErr then
        { events := [.hijack, .dial, .preamble, .writeReq]
          logs := preambleLogs ++ ["send to server err"]
          outcome := .ret }
      else if e.hijackErr then
        { events := [.hijack, .dial, .preamble, .writeReq]
          logs := preambleLogs
          outcome := .panicked }
      else
        { events := [.hijack, .dial, .preamble, .writeReq, .transport]
          logs := preambleLogs ++ (if e.transportErr then ["trans error"] else [])
          outcome := .ret }

/-- C7 counterexample: a failed hijack draws a 502 reply in neither
`DumpHTTPAndHTTPs` (which logs and keeps processing: the dial still happens)
nor `Forward` (which never consults the hijack error at all); only
`InterceptHTTPs` answers 502.  This refutes the claim that every hijacking
path replies 502 and stops. -/
theorem C7_counterexample :
    DumpEvent.respond502 ∉
      (dumpHTTPAndHTTPs ⟨true, false, false, false, false, false, false, false, false⟩ []).events ∧
    DumpEvent.dialOut false ∈
      (dumpHTTPAndHTTPs ⟨true, false, false, false, false, false, false, false, false⟩ []).events ∧
    FwEvent.respond502 ∉
      (forward ⟨true, false, false, false, 200, true, false, false, false⟩).events ∧
    FwEvent.writeAck ∉
      (forward ⟨true, false, false, false, 200, true, false, false, false⟩).events ∧
    interceptHTTPs ⟨false, true⟩ = [.hijack, .respond502] := by
  decide

/-- C7 (amended): only the HTTPS-interception path replies 502 on a hijack
failure and stops there; the plain relay handler logs the error and keeps
processing the request, and the forward handler ignores the error entirely
(no 502 is ever produced by either). -/
theorem C7_amended_hijack_502 (ie : InterceptEnv) (e : DumpEnv)
    (acts : List FilterAction) (fe : ForwardEnv)
    (hc : ie.certErr = false) (hi : ie.hijackErr = true)
    (hd : e.hijackErr = true) :
    interceptHTTPs ie = [.hijack, .respond502] ∧
    DumpEvent.respond502 ∉ (dumpHTTPAndHTTPs e acts).events ∧
    "hijack error" ∈ (dumpHTTPAndHTTPs e acts).logs ∧
    FwEvent.respond502 ∉ (forward fe).events := by
  refine ⟨?_, ?_, ?_, ?_⟩
  · simp [interceptHTTPs, hc, hi]
  · obtain ⟨hij, https, dialErr, writeErr, readErr, readEOF, rdErr, cwErr, mon⟩ := e
    cases hij <;> cases https <;> cases dialErr <;> cases writeErr <;> cases readErr <;>
      simp_all [dumpHTTPAndHTTPs, relayTail, exitEvents, exitOutcome]
  · obtain ⟨hij, https, dialErr, writeErr, readErr, readEOF, rdErr, cwErr, mon⟩ := e
    cases hij <;> cases https <;> cases dialErr <;> cases writeErr <;> cases readErr <;>
      simp_all [dumpHTTPAndHTTPs, relayTail, exitEvents, exitOutcome, hijackLogs,
        readLogs, respDumpLogs, connInWriteLogs]
  · obtain ⟨fhij, fdial, fpw, fpr, fst, fconn, fack, freq, ftr⟩ := fe
    cases fdial <;> cases fconn <;> cases fhij <;> cases fack <;> cases freq <;>
      simp_all [forward]

/-- Witness for the amended C7. -/
theorem C7_amended_hijack_502_witness :
    interceptHTTPs ⟨false, true⟩ = [.hijack, .respond502] ∧
    DumpEvent.respond502 ∉
      (dumpHTTPAndHTTPs ⟨true, false, false, false, false, false, false, false, false⟩ []).events ∧
    "hijack error" ∈
      (dumpHTTPAndHTTPs ⟨true, false, false, false, false, false, false, false, false⟩ []).logs ∧
    FwEvent.respond502 ∉
      (forward ⟨false, false, false, false, 200, true, false, false, false⟩).events :=
  C7_amended_hijack_502 ⟨false, true⟩
    ⟨true, false, false, false, false, false, false, false, false⟩ []
    ⟨false, false, false, false, 200, true, false, false, false⟩ rfl rfl rfl

/-- C8 counterexample: with the upstream proxy answering 407,
`connectProxyServer` does return an error, but `Forward` only logs it
(mitm.go lines 352-355) and still writes the Connection-Established ACK to
the client and starts the bidirectional copy — refuting the claim that a
non-200 response prevents both. -/
theorem C8_counterexample :
    connectProxyServer false false 407 = .error "407" ∧
    FwEvent.writeAck ∈
      (forward ⟨false, false, false, false, 407, true, false, false, false⟩).events ∧
    FwEvent.transport ∈
      (forward ⟨false, false, false, false, 407, true, false, false, false⟩).events ∧
    "connectProxyServer error" ∈
      (forward ⟨false, false, false, false, 407, true, false, false, false⟩).logs :=
  ⟨rfl, by decide, by decide, by decide⟩

/-- C8 (amended): `connectProxyServer` succeeds exactly on a 200 upstream
reply with no preamble I/O error, but `Forward` does not act on its result:
on a CONNECT request with working client socket and successful ACK write it
writes the ACK and starts the copy tasks whatever the upstream answered. -/
theorem C8_amended_forward_ignores_preamble (wErr rErr : Bool) (status : Nat)
    (e : ForwardEnv) (hh : e.hijackErr = false) (hd : e.dialErr = false)
    (hc : e.isConnect = true) (ha : e.ackWriteErr = false) :
    (connectProxyServer wErr rErr status = .ok () ↔
      (wErr = false ∧ rErr = false ∧ status = 200)) ∧
    FwEvent.writeAck ∈ (forward e).events ∧
    FwEvent.transport ∈ (forward e).events := by
  refine ⟨?_, ?_, ?_⟩
  · cases wErr <;> cases rErr <;>
      by_cases hs : status = 200 <;> simp_all [connectProxyServer]
  · obtain ⟨fhij, fdial, fpw, fpr, fst, fconn, fack, freq, ftr⟩ := e
    simp_all [forward]
  · obtain ⟨fhij, fdial, fpw, fpr, fst, fconn, fack, freq, ftr⟩ := e
    simp_all [forward]

/-- Witness for the amended C8: upstream answers 407. -/
theorem C8_amended_forward_ignores_preamble_witness :
    (connectProxyServer false false 407 = .ok () ↔
      (false = false ∧ false = false ∧ 407 = 200)) ∧
    FwEvent.writeAck ∈
      (forward ⟨false, false, false, false, 407, true, false, false, false⟩).events ∧
    FwEvent.transport ∈
      (forward ⟨false, false, false, false, 407, true, false, false, false⟩).events :=
  C8_amended_forward_ignores_preamble false false 407
    ⟨false, false, false, false, 407, true, false, false, false⟩ rfl rfl rfl rfl

end GoMitmProxy
